import Mathlib

/-!
Verification development for the curl-impersonate net/http wrapper
(`curlhttp` package). The Go source is shallowly embedded: strings are
lists of characters, the header multimap is an association list keyed by
canonicalized names, the connection pool is a FIFO list of handles, and
the native curl layer (Setopt / Perform / Getinfo outcomes and the bytes
it streams into the callbacks) is an explicit oracle parameter. All
definitions are executable.
-/

namespace CurlHttp

/-- Go strings, embedded as lists of characters. -/
abbrev Str := List Char

/-- Whitespace recognized by `strings.TrimSpace` on the ASCII range
(space, tab, newline, vertical tab, form feed, carriage return); the
header lines processed by this package are ASCII byte strings. -/
def isGoSpace (c : Char) : Bool :=
  c = ' ' || c = '\t' || c = '\n' || c = Char.ofNat 11 || c = Char.ofNat 12 || c = '\r'

/-- Trim leading whitespace. -/
def trimLeftSpace (s : Str) : Str := s.dropWhile isGoSpace

/-- Trim trailing whitespace. -/
def trimRightSpace (s : Str) : Str := (s.reverse.dropWhile isGoSpace).reverse

/-- `strings.TrimSpace`: remove whitespace from both ends (the two ends
are independent, so trimming right then left is the same function). -/
def trimSpace (s : Str) : Str := trimLeftSpace (trimRightSpace s)

/-- `strings.HasPrefix pat s` (first argument is the pattern). -/
def hasPrefixStr : Str → Str → Bool
  | [], _ => true
  | _ :: _, [] => false
  | p :: ps, c :: cs => p = c && hasPrefixStr ps cs

/-- `strings.SplitN s sep 2` for a one-character separator: split at the
first occurrence, or `none` when the separator does not occur. -/
def splitOnFirst (sep : Char) : Str → Option (Str × Str)
  | [] => none
  | c :: t =>
    if c = sep then some ([], t)
    else (splitOnFirst sep t).map (fun p => (c :: p.1, p.2))

/-- `strings.Split s "\n"`: the list of newline-separated pieces
(`[""]` for the empty string, matching Go). -/
def splitLines : Str → List Str
  | [] => [[]]
  | c :: rest =>
    let r := splitLines rest
    if c = '\n' then [] :: r else (c :: r.headD []) :: r.tail

/-- `strings.SplitN s sep 2` for a multi-character separator: the pieces
before and after the first occurrence of `sep`, or `none` when absent. -/
def splitOnceSeq (sep : Str) : Str → Option (Str × Str)
  | [] => if hasPrefixStr sep [] then some ([], List.drop sep.length []) else none
  | c :: t =>
    if hasPrefixStr sep (c :: t) then some ([], (c :: t).drop sep.length)
    else (splitOnceSeq sep t).map (fun p => (c :: p.1, p.2))

/-- Index of the first occurrence of `pat` in the string, if any. -/
def firstOccurIdx (pat : Str) : Str → Option Nat
  | [] => if hasPrefixStr pat [] then some 0 else none
  | c :: t =>
    if hasPrefixStr pat (c :: t) then some 0
    else (firstOccurIdx pat t).map (fun n => n + 1)

/-- `strings.Join lines sep`. -/
def joinLines (sep : Str) : List Str → Str
  | [] => []
  | [l] => l
  | l :: rest => l ++ sep ++ joinLines sep rest

/-- Bytes allowed in a MIME header field name (`textproto`'s token
characters): alphanumerics and the listed ASCII symbols. -/
def validHeaderFieldChar (c : Char) : Bool :=
  ('0' ≤ c && c ≤ '9') || ('a' ≤ c && c ≤ 'z') || ('A' ≤ c && c ≤ 'Z') ||
  c = '!' || c = '#' || c = '$' || c = '%' || c = '&' || c = Char.ofNat 39 ||
  c = '*' || c = '+' || c = '-' || c = '.' || c = '^' || c = '_' ||
  c = Char.ofNat 96 || c = '|' || c = '~'

/-- Uppercase an ASCII letter. -/
def upperAscii (c : Char) : Char :=
  if 'a' ≤ c && c ≤ 'z' then Char.ofNat (c.toNat - 32) else c

/-- Lowercase an ASCII letter. -/
def lowerAscii (c : Char) : Char :=
  if 'A' ≤ c && c ≤ 'Z' then Char.ofNat (c.toNat + 32) else c

/-- The canonicalizing pass of `textproto.CanonicalMIMEHeaderKey`:
uppercase the first letter and every letter following a hyphen,
lowercase the rest. -/
def canonChars : Bool → Str → Str
  | _, [] => []
  | upper, c :: rest =>
    let c2 := if upper then upperAscii c else lowerAscii c
    c2 :: canonChars (c2 = '-') rest

/-- `textproto.CanonicalMIMEHeaderKey`: keys containing any invalid
byte are returned unchanged, otherwise they are canonicalized. -/
def canonicalKey (s : Str) : Str :=
  if s.all validHeaderFieldChar then canonChars true s else s

/-- `http.Header`, embedded as an association list from a canonicalized
name to its ordered list of values. -/
abbrev HeaderMap := List (Str × List Str)

/-- Append a value to the entry for `ck`, creating the entry at the end
when absent (the `append` in `textproto.MIMEHeader.Add`). -/
def addToEntry (ck : Str) (v : Str) : HeaderMap → HeaderMap
  | [] => [(ck, [v])]
  | e :: rest =>
    if e.1 = ck then (e.1, e.2 ++ [v]) :: rest else e :: addToEntry ck v rest

/-- The values stored under a canonicalized key. -/
def lookupValues (ck : Str) : HeaderMap → List Str
  | [] => []
  | e :: rest => if e.1 = ck then e.2 else lookupValues ck rest

/-- Replace the entry for `ck` by the single value `v` (the assignment
in `textproto.MIMEHeader.Set`). -/
def setEntry (ck : Str) (v : Str) : HeaderMap → HeaderMap
  | [] => [(ck, [v])]
  | e :: rest =>
    if e.1 = ck then (e.1, [v]) :: rest else e :: setEntry ck v rest

/-- `Header.Add`: canonicalize the name and append the value. -/
def headerAdd (h : HeaderMap) (k v : Str) : HeaderMap :=
  addToEntry (canonicalKey k) v h

/-- `Header.Values`: the values under the canonicalized name. -/
def headerValues (h : HeaderMap) (k : Str) : List Str :=
  lookupValues (canonicalKey k) h

/-- `Header.Get`: the first value under the canonicalized name, or the
empty string when there is none. -/
def headerGet (h : HeaderMap) (k : Str) : Str :=
  match headerValues h k with
  | [] => []
  | v :: _ => v

/-- `Header.Set`: canonicalize the name and replace its values by `v`. -/
def headerSet (h : HeaderMap) (k v : Str) : HeaderMap :=
  setEntry (canonicalKey k) v h

/-- The status-line token skipped by the header parser. -/
def httpTok : Str := "HTTP/".toList

/-- One header line, as processed both by the `writeHeaderToMap`
callback (`client.go`) and by each iteration of the `parseHeaders` loop:
trim the line, ignore it when blank or when it starts with the
protocol-version token, otherwise split at the first colon and add the
trimmed value under the trimmed, canonicalized name; lines without a
colon are ignored. -/
def processHeaderLine (h : HeaderMap) (raw : Str) : HeaderMap :=
  let line := trimSpace raw
  if line = [] then h
  else if hasPrefixStr httpTok line then h
  else
    match splitOnFirst ':' line with
    | some (name, value) => headerAdd h (trimSpace name) (trimSpace value)
    | none => h

/-- `parseHeaders`: split the raw header block on newlines and process
each line. -/
def parseHeaders (s : Str) : HeaderMap :=
  (splitLines s).foldl processHeaderLine []

/-- The Header Collector fed one raw line per native callback
invocation: fold `processHeaderLine` over the delivered lines. -/
def collectHeaders (lines : List Str) : HeaderMap :=
  lines.foldl processHeaderLine []

/-- The untyped `userdata` argument of the header callback: either the
header map sink or something else. -/
inductive Userdata
  | headerMap (h : HeaderMap)
  | other

/-- `writeHeaderToMap` (`client.go`): fail only when the sink is not a
header map; otherwise process the line and report success. -/
def writeHeaderToMap (data : Str) (u : Userdata) : Bool × Userdata :=
  match u with
  | .other => (false, .other)
  | .headerMap h => (true, .headerMap (processHeaderLine h data))

/-- The `Transport` configuration record (`client.go`). Durations are in
the unit named by each field, as in the source. -/
structure TransportCfg where
  impersonateTarget : String
  proxy : Option String
  useDefaultHeaders : Bool
  maxPoolSize : Nat
  maxConnects : Int
  maxAgeConn : Int
  maxLifetimeConn : Int
  connectTimeoutMs : Int
  timeoutMs : Int
  dnsCacheTimeout : Int
  bufferSize : Int
  enableTCPFastOpen : Bool
  httpVersion : Int
deriving DecidableEq

/-- `NewTransport` (`client.go`). -/
def newTransportCfg : TransportCfg :=
  { impersonateTarget := "chrome136"
    proxy := none
    useDefaultHeaders := true
    maxPoolSize := 10
    maxConnects := 50
    maxAgeConn := 300
    maxLifetimeConn := 600
    connectTimeoutMs := 5000
    timeoutMs := 30000
    dnsCacheTimeout := 300
    bufferSize := 16384
    enableTCPFastOpen := false
    httpVersion := 0 }

/-- The default-filling block at the top of `configureCurlHandle`
(`client.go` lines 348-372): every zero-valued field is replaced by its
documented default, every other field is kept. -/
def fillDefaults (t : TransportCfg) : TransportCfg :=
  { t with
    impersonateTarget := if t.impersonateTarget = "" then "chrome136" else t.impersonateTarget
    maxConnects := if t.maxConnects = 0 then 50 else t.maxConnects
    maxAgeConn := if t.maxAgeConn = 0 then 300 else t.maxAgeConn
    maxLifetimeConn := if t.maxLifetimeConn = 0 then 600 else t.maxLifetimeConn
    connectTimeoutMs := if t.connectTimeoutMs = 0 then 5000 else t.connectTimeoutMs
    timeoutMs := if t.timeoutMs = 0 then 30000 else t.timeoutMs
    dnsCacheTimeout := if t.dnsCacheTimeout = 0 then 300 else t.dnsCacheTimeout
    bufferSize := if t.bufferSize = 0 then 16384 else t.bufferSize }

/-- The curl options applied by this package, one constructor per
`curl.OPT_*` constant (plus the impersonation call). -/
inductive OptName
  | header_ | noprogress | impersonate_
  | ssl_verifypeer | ssl_verifyhost | ssl_verifystatus
  | fresh_connect | forbid_reuse
  | tcp_keepalive | tcp_keepidle | tcp_keepintvl
  | maxconnects | maxage_conn | maxlifetime_conn
  | connecttimeout_ms | timeout_ms | dns_cache_timeout
  | tcp_nodelay | tcp_fastopen | nosignal | buffersize
  | proxy_ssl_verifypeer | proxy_ssl_verifyhost | http_version
deriving DecidableEq

/-- A value passed to `Setopt` (or to `Impersonate`). -/
inductive OptVal
  | b (v : Bool)
  | i (v : Int)
  | imp (target : String) (useDefault : Bool)
deriving DecidableEq

/-- A curl easy handle, recorded as the list of persistent option
applications made since it was created or last reset. -/
abbrev Handle := List (OptName × OptVal)

/-- `curl_easy_reset`: the handle returns to a pristine state. -/
def resetHandle (_h : Handle) : Handle := []

/-- The option applications of `configureCurlHandle` (`client.go` lines
374-420), performed after default filling; their errors are not checked
in the source. -/
def applyStandardOpts (t : TransportCfg) (h : Handle) : Handle :=
  let base := h ++
    [ (OptName.header_, OptVal.b false), (OptName.noprogress, OptVal.b true),
      (OptName.impersonate_, OptVal.imp t.impersonateTarget t.useDefaultHeaders),
      (OptName.ssl_verifypeer, OptVal.b false), (OptName.ssl_verifyhost, OptVal.b false),
      (OptName.ssl_verifystatus, OptVal.b false),
      (OptName.fresh_connect, OptVal.b false), (OptName.forbid_reuse, OptVal.b false),
      (OptName.tcp_keepalive, OptVal.b true), (OptName.tcp_keepidle, OptVal.i 60),
      (OptName.tcp_keepintvl, OptVal.i 60),
      (OptName.maxconnects, OptVal.i t.maxConnects), (OptName.maxage_conn, OptVal.i t.maxAgeConn),
      (OptName.maxlifetime_conn, OptVal.i t.maxLifetimeConn),
      (OptName.connecttimeout_ms, OptVal.i t.connectTimeoutMs),
      (OptName.timeout_ms, OptVal.i t.timeoutMs),
      (OptName.dns_cache_timeout, OptVal.i t.dnsCacheTimeout),
      (OptName.tcp_nodelay, OptVal.b true) ]
  let base2 := if t.enableTCPFastOpen then base ++ [ (OptName.tcp_fastopen, OptVal.b true) ] else base
  let base3 := base2 ++ [ (OptName.nosignal, OptVal.b true), (OptName.buffersize, OptVal.i t.bufferSize) ]
  let base4 :=
    match t.proxy with
    | some _ => base3 ++ [ (OptName.proxy_ssl_verifypeer, OptVal.b false),
                           (OptName.proxy_ssl_verifyhost, OptVal.b false) ]
    | none => base3
  if t.httpVersion > 0 then base4 ++ [ (OptName.http_version, OptVal.i t.httpVersion) ] else base4

/-- `configureCurlHandle` (`client.go`): first fill defaults into the
transport record (the source mutates the receiver), then apply every
option to the handle. Returns the updated record and handle. -/
def configureCurlHandle (t : TransportCfg) (h : Handle) : TransportCfg × Handle :=
  let t2 := fillDefaults t
  (t2, applyStandardOpts t2 h)

/-- Observable pool-lifecycle events of one request. -/
inductive PoolEvent
  | acquiredFromPool
  | createdNew
  | released
  | returnedToPool
  | destroyed
deriving DecidableEq

/-- Keys of the error-checked `Setopt` calls in the request routines. -/
inductive OptKey
  | opturl | httpget | nobody | post | postfields | postfieldsize | upload
  | customrequest | httpheader | writefunction | writedata | proxyopt
  | headerfunction | headerdata
deriving DecidableEq

/-- Outcomes of the native curl layer for one request: which
error-checked `Setopt` calls succeed, whether `EasyInit` and `Perform`
succeed, the `Getinfo` results, and the bytes the native side streams
into the header and body callbacks during `Perform`. -/
structure CurlOracle where
  easyInitOk : Bool
  setoptOk : OptKey → Bool
  performOk : Bool
  getinfoCodeOk : Bool
  responseCode : Int
  contentTypeInfo : Option (Option Str)
  headerLines : List Str
  bodyChunks : List Str

/-- Result of `getCurlHandle`: the handle (if any), the possibly
updated transport record, the remaining idle pool, and the events. -/
structure AcquireResult where
  handle : Option Handle
  cfg : TransportCfg
  pool : List Handle
  events : List PoolEvent

/-- Result of `returnCurlHandle`. -/
structure ReleaseResult where
  cfg : TransportCfg
  pool : List Handle
  events : List PoolEvent

/-- Effective pool capacity (`initPool`, `client.go`: a zero
`maxPoolSize` becomes 200). -/
def poolCap (t : TransportCfg) : Nat :=
  if t.maxPoolSize = 0 then 200 else t.maxPoolSize

/-- `getCurlHandle` (`client.go`): non-blocking receive from the idle
pool; on a miss, `EasyInit` a fresh handle (which may fail) and
configure it. -/
def getCurlHandle (t : TransportCfg) (pool : List Handle) (o : CurlOracle) : AcquireResult :=
  match pool with
  | h0 :: rest => ⟨some h0, t, rest, [PoolEvent.acquiredFromPool]⟩
  | [] =>
    if o.easyInitOk then
      let c := configureCurlHandle t []
      ⟨some c.2, c.1, [], [PoolEvent.createdNew]⟩
    else ⟨none, t, [], []⟩

/-- `returnCurlHandle` (`client.go` lines 424-442): reset the handle,
reapply the persistent configuration, then non-blocking send back to
the idle pool, destroying the handle when the pool is full. -/
def returnCurlHandle (t : TransportCfg) (pool : List Handle) (h : Handle) : ReleaseResult :=
  if pool.length < poolCap t then
    ⟨(configureCurlHandle t (resetHandle h)).1,
     pool ++ [(configureCurlHandle t (resetHandle h)).2],
     [PoolEvent.released, PoolEvent.returnedToPool]⟩
  else
    ⟨(configureCurlHandle t (resetHandle h)).1, pool,
     [PoolEvent.released, PoolEvent.destroyed]⟩

/-- `http.Request`, restricted to the fields the wrapper reads. The
request pointer itself may be nil (`Option RequestModel` below); the
body is absent, readable, or failing to read. -/
structure RequestModel where
  url : Option Str
  method : Str
  header : List (Str × List Str)
  body : Option (Except String Str)

/-- `http.Response`, restricted to the fields the wrapper writes. The
protocol fields are fixed at HTTP/1.1 by the source and omitted. -/
structure ResponseModel where
  statusCode : Int
  header : HeaderMap
  body : Str
  contentLength : Int
  request : Option RequestModel

/-- Canonical header-name and value constants used by the source. -/
def contentTypeKey : Str := "Content-Type".toList

/-- The generic default content type set by the source. -/
def defaultContentType : Str := "application/json".toList

/-- The post-`Perform` assembly step of `performOptimizedRequest`
(`client.go` lines 624-658): read the status code, fall back to curl's
content-type metadata when no Content-Type was collected, default it
when still absent, and build the response. -/
def finalizeResponse (code : Int) (hdrs : HeaderMap) (ctInfo : Option (Option Str))
    (bodyData : Str) : ResponseModel :=
  let h1 :=
    if headerGet hdrs contentTypeKey = [] then
      match ctInfo with
      | some (some ct) => if ct = [] then hdrs else headerSet hdrs contentTypeKey ct
      | _ => hdrs
    else hdrs
  let h2 :=
    if headerGet h1 contentTypeKey = [] then headerSet h1 contentTypeKey defaultContentType
    else h1
  { statusCode := code, header := h2, body := bodyData,
    contentLength := (bodyData.length : Int), request := none }

/-- HTTP method names. -/
def methodGET : Str := "GET".toList

/-- HTTP method name HEAD. -/
def methodHEAD : Str := "HEAD".toList

/-- HTTP method name POST. -/
def methodPOST : Str := "POST".toList

/-- HTTP method name PUT. -/
def methodPUT : Str := "PUT".toList

/-- HTTP method name DELETE. -/
def methodDELETE : Str := "DELETE".toList

/-- The body of `performOptimizedRequest` (`client.go` lines 518-660)
between acquisition and release: the error-checked `Setopt` sequence
(URL, method-specific options, header list, write and header callbacks,
proxy), `Perform`, `Getinfo`, and response assembly. Wrapped error
texts are abstracted to their prefixes; the claims never inspect them. -/
def performCore (t : TransportCfg) (o : CurlOracle) (url method : Str)
    (headers : List (Str × Str)) (body : Str) : Except String ResponseModel :=
  let _ := url
  if !(o.setoptOk OptKey.opturl) then .error "failed to set URL"
  else
    let methodRes : Except String Unit :=
      if method = methodGET then
        if o.setoptOk OptKey.httpget then .ok () else .error "failed to set GET method"
      else if method = methodHEAD then
        if o.setoptOk OptKey.nobody then .ok () else .error "failed to set HEAD method"
      else if method = methodPOST then
        if !(o.setoptOk OptKey.post) then .error "failed to set POST method"
        else if !body.isEmpty && !(o.setoptOk OptKey.postfields) then .error "failed to set request body"
        else if !body.isEmpty && !(o.setoptOk OptKey.postfieldsize) then .error "failed to set post field size"
        else .ok ()
      else if method = methodPUT then
        if !(o.setoptOk OptKey.upload) then .error "failed to set PUT method"
        else if !body.isEmpty && !(o.setoptOk OptKey.postfields) then .error "failed to set request body"
        else .ok ()
      else if method = methodDELETE then
        if o.setoptOk OptKey.customrequest then .ok () else .error "failed to set DELETE method"
      else
        if o.setoptOk OptKey.customrequest then .ok () else .error "failed to set custom method"
    match methodRes with
    | .error e => .error e
    | .ok _ =>
      if !headers.isEmpty && !(o.setoptOk OptKey.httpheader) then .error "failed to set headers"
      else if !(o.setoptOk OptKey.writefunction) then .error "failed to set write function"
      else if !(o.setoptOk OptKey.writedata) then .error "failed to set write data"
      else if t.proxy.isSome && !(o.setoptOk OptKey.proxyopt) then .error "failed to set proxy"
      else if !(o.setoptOk OptKey.headerfunction) then .error "failed to set header function"
      else if !(o.setoptOk OptKey.headerdata) then .error "failed to set header data"
      else if !o.performOk then .error "request failed"
      else if !o.getinfoCodeOk then .error "failed to get response code"
      else
        .ok (finalizeResponse o.responseCode (collectHeaders o.headerLines)
              o.contentTypeInfo o.bodyChunks.flatten)

/-- Result of one execution of a request routine. -/
structure PerformResult where
  result : Except String ResponseModel
  cfg : TransportCfg
  pool : List Handle
  events : List PoolEvent

/-- `performOptimizedRequest` (`client.go` lines 510-661): acquire a
handle from the pool (failing without release when none can be
created), run the core, and release the handle exactly as the `defer`
does — on the success path and on every failure path after
acquisition. -/
def performOptimizedRequest (t : TransportCfg) (pool : List Handle) (o : CurlOracle)
    (url method : Str) (headers : List (Str × Str)) (body : Str) : PerformResult :=
  let acq := getCurlHandle t pool o
  match acq.handle with
  | none => ⟨.error "failed to get curl handle", acq.cfg, acq.pool, acq.events⟩
  | some easy =>
    let res := performCore acq.cfg o url method headers body
    let rel := returnCurlHandle acq.cfg acq.pool easy
    ⟨res, rel.cfg, rel.pool, acq.events ++ rel.events⟩

/-- The header-flattening loop of `RoundTrip`: one value per name
(the first of the slice). -/
def flattenRequestHeader (h : List (Str × List Str)) : List (Str × Str) :=
  h.filterMap fun e =>
    match e.2 with
    | [] => none
    | v :: _ => some (e.1, v)

/-- Result of `RoundTrip`. -/
structure RoundTripResult where
  result : Except String ResponseModel
  cfg : TransportCfg
  pool : List Handle
  events : List PoolEvent

/-- `Transport.RoundTrip` (`client.go` lines 470-507): nil-request and
nil-URL precondition checks, header flattening, body read, the
optimized request, and attaching the request to the response. -/
def roundTrip (t : TransportCfg) (pool : List Handle) (o : CurlOracle)
    (req : Option RequestModel) : RoundTripResult :=
  match req with
  | none => ⟨.error "request cannot be nil", t, pool, []⟩
  | some r =>
    match r.url with
    | none => ⟨.error "request URL cannot be nil", t, pool, []⟩
    | some u =>
      let headers := flattenRequestHeader r.header
      match r.body with
      | some (.error e) => ⟨.error ("failed to read request body: " ++ e), t, pool, []⟩
      | some (.ok b) =>
        let pr := performOptimizedRequest t pool o u r.method headers b
        match pr.result with
        | .error e => ⟨.error e, pr.cfg, pr.pool, pr.events⟩
        | .ok resp => ⟨.ok { resp with request := some r }, pr.cfg, pr.pool, pr.events⟩
      | none =>
        let pr := performOptimizedRequest t pool o u r.method headers []
        match pr.result with
        | .error e => ⟨.error e, pr.cfg, pr.pool, pr.events⟩
        | .ok resp => ⟨.ok { resp with request := some r }, pr.cfg, pr.pool, pr.events⟩

/-- The double-CRLF separator of the combined header+body blob. -/
def crlf2 : Str := "\r\n\r\n".toList

/-- The double-LF fallback separator. -/
def lf2 : Str := "\n\n".toList

/-- The CRLF line terminator. -/
def crlfSep : Str := "\r\n".toList

/-- The bare-LF line terminator. -/
def lfSep : Str := "\n".toList

/-- The header/body split of the combined blob (`performRequest` and
the pooled variant): `SplitN` on the first double CRLF, falling back to
double LF, else a parse error. -/
def splitHeadersBody (s : Str) : Except String (Str × Str) :=
  match splitOnceSeq crlf2 s with
  | some (hs, bs) => .ok (hs, bs)
  | none =>
    match splitOnceSeq lf2 s with
    | some (hs, bs) => .ok (hs, bs)
    | none => .error "failed to separate headers and body in response"

/-- The post-`Perform` assembly of the blob-capturing variant: split
the combined blob, parse the header part, and build the response; a
missing separator yields the parse error and no response. -/
def assembleFromBlob (code : Int) (combined : Str) : Except String ResponseModel :=
  match splitHeadersBody combined with
  | .error e => .error e
  | .ok (hs, bs) =>
    .ok { statusCode := code, header := parseHeaders hs, body := bs,
          contentLength := (bs.length : Int), request := none }

/-- The persistent options applied to a fresh or reset handle by the
blob-capturing pooled variant (`getCurlHandle` and `returnCurlHandle`
of that variant): headers included in the body stream, keep-alive on. -/
def applyPersistentOptsB (target : String) (useDefault : Bool) (h : Handle) : Handle :=
  h ++
    [ (OptName.header_, OptVal.b true), (OptName.noprogress, OptVal.b true),
      (OptName.impersonate_, OptVal.imp target useDefault),
      (OptName.fresh_connect, OptVal.b false), (OptName.forbid_reuse, OptVal.b false),
      (OptName.tcp_keepalive, OptVal.b true), (OptName.tcp_keepidle, OptVal.i 60),
      (OptName.tcp_keepintvl, OptVal.i 60) ]

/-- Effective pool capacity of the blob-capturing variant (its
`initPool` defaults a zero `maxPoolSize` to 10). -/
def poolCapB (t : TransportCfg) : Nat :=
  if t.maxPoolSize = 0 then 10 else t.maxPoolSize

/-- `getCurlHandle` of the blob-capturing variant: pool receive, else
create and apply the persistent options (defaulting the impersonation
target on the transport record itself, as the source does). -/
def getCurlHandleB (t : TransportCfg) (pool : List Handle) (o : CurlOracle) : AcquireResult :=
  match pool with
  | h0 :: rest => ⟨some h0, t, rest, [PoolEvent.acquiredFromPool]⟩
  | [] =>
    if o.easyInitOk then
      let target := if t.impersonateTarget = "" then "chrome136" else t.impersonateTarget
      ⟨some (applyPersistentOptsB target t.useDefaultHeaders []),
       { t with impersonateTarget := target }, [], [PoolEvent.createdNew]⟩
    else ⟨none, t, [], []⟩

/-- `returnCurlHandle` of the blob-capturing variant: reset, reapply
the persistent options, non-blocking send or destroy. -/
def returnCurlHandleB (t : TransportCfg) (pool : List Handle) (h : Handle) : ReleaseResult :=
  if pool.length < poolCapB t then
    ⟨t, pool ++ [applyPersistentOptsB t.impersonateTarget t.useDefaultHeaders (resetHandle h)],
     [PoolEvent.released, PoolEvent.returnedToPool]⟩
  else
    ⟨t, pool, [PoolEvent.released, PoolEvent.destroyed]⟩

/-- The body of the blob-capturing `performOptimizedRequest` between
acquisition and release: URL and method options (GET sets nothing),
headers, write callback, `Perform`, `Getinfo`, then the separator split
of the combined blob — whose failure is the parse-error path. -/
def performBlobCore (o : CurlOracle) (url method : Str)
    (headers : List (Str × Str)) (body : Str) : Except String ResponseModel :=
  let _ := url
  if !(o.setoptOk OptKey.opturl) then .error "failed to set URL"
  else
    let methodRes : Except String Unit :=
      if method = methodGET then .ok ()
      else if method = methodHEAD then
        if o.setoptOk OptKey.nobody then .ok () else .error "failed to set HEAD method"
      else if method = methodPOST then
        if !(o.setoptOk OptKey.post) then .error "failed to set POST method"
        else if !body.isEmpty && !(o.setoptOk OptKey.postfields) then .error "failed to set request body"
        else .ok ()
      else if method = methodPUT then
        if !(o.setoptOk OptKey.upload) then .error "failed to set PUT method"
        else if !body.isEmpty && !(o.setoptOk OptKey.postfields) then .error "failed to set request body"
        else .ok ()
      else if method = methodDELETE then
        if o.setoptOk OptKey.customrequest then .ok () else .error "failed to set DELETE method"
      else
        if o.setoptOk OptKey.customrequest then .ok () else .error "failed to set custom method"
    match methodRes with
    | .error e => .error e
    | .ok _ =>
      if !headers.isEmpty && !(o.setoptOk OptKey.httpheader) then .error "failed to set headers"
      else if !(o.setoptOk OptKey.writefunction) then .error "failed to set write function"
      else if !(o.setoptOk OptKey.writedata) then .error "failed to set write data"
      else if !o.performOk then .error "request failed"
      else if !o.getinfoCodeOk then .error "failed to get response code"
      else assembleFromBlob o.responseCode o.bodyChunks.flatten

/-- The blob-capturing pooled `performOptimizedRequest`: acquisition,
core, and the deferred release on every path after acquisition
(including the parse-failure path inside the core). -/
def performBlobRequest (t : TransportCfg) (pool : List Handle) (o : CurlOracle)
    (url method : Str) (headers : List (Str × Str)) (body : Str) : PerformResult :=
  let acq := getCurlHandleB t pool o
  match acq.handle with
  | none => ⟨.error "failed to get curl handle", acq.cfg, acq.pool, acq.events⟩
  | some easy =>
    let res := performBlobCore o url method headers body
    let rel := returnCurlHandleB acq.cfg acq.pool easy
    ⟨res, rel.cfg, rel.pool, acq.events ++ rel.events⟩

/-- `Client`, restricted to the fields `ensureInitialized` touches:
the embedded client's transport and timeout (nanoseconds, as
`time.Duration`) and the initialization flag. -/
structure ClientState where
  transport : Option TransportCfg
  timeoutNs : Int
  initialized : Bool
deriving DecidableEq

/-- Thirty seconds in nanoseconds (`30 * time.Second`). -/
def thirtySecondsNs : Int := 30000000000

/-- `Client.ensureInitialized` (`client.go` lines 673-683), as a
sequential (single-caller) state transformer. -/
def ensureInitialized (c : ClientState) : ClientState :=
  if c.initialized then c
  else
    { transport :=
        match c.transport with
        | none => some newTransportCfg
        | some tr => some tr
      timeoutNs := if c.timeoutNs = 0 then thirtySecondsNs else c.timeoutNs
      initialized := true }

/-- Program counter of one thread running `ensureInitialized`, one
phase per shared-memory load or store of the source: the `initialized`
flag load, the `Transport` load, the `Transport` store, the `Timeout`
load, the `Timeout` store, and the flag store. -/
inductive InitPhase
  | beforeFlag
  | beforeTransportCheck
  | atTransportWrite
  | beforeTimeoutCheck
  | atTimeoutWrite
  | atFlagWrite
  | done
deriving DecidableEq

/-- The client fields shared between concurrently running callers of
`ensureInitialized`; `transport` holds the allocation number of the
`NewTransport` result stored there, and `allocCount` counts how many
times the initialization body allocated a transport. -/
structure RaceState where
  initialized : Bool
  transport : Option Nat
  timeoutNs : Int
  allocCount : Nat
deriving DecidableEq

/-- One atomic step of a thread running `ensureInitialized`: each load
or store of a shared field is one step, exactly as the unsynchronized
source interleaves under sequential consistency. -/
def initStep (p : InitPhase) (s : RaceState) : InitPhase × RaceState :=
  match p with
  | .beforeFlag => if s.initialized then (.done, s) else (.beforeTransportCheck, s)
  | .beforeTransportCheck =>
    if s.transport.isNone then (.atTransportWrite, s) else (.beforeTimeoutCheck, s)
  | .atTransportWrite =>
    (.beforeTimeoutCheck,
     { s with transport := some s.allocCount, allocCount := s.allocCount + 1 })
  | .beforeTimeoutCheck =>
    if s.timeoutNs = 0 then (.atTimeoutWrite, s) else (.atFlagWrite, s)
  | .atTimeoutWrite => (.atFlagWrite, { s with timeoutNs := thirtySecondsNs })
  | .atFlagWrite => (.done, { s with initialized := true })
  | .done => (.done, s)

/-- Two threads running `ensureInitialized` over the same client. -/
structure RaceWorld where
  p1 : InitPhase
  p2 : InitPhase
  shared : RaceState

/-- Run a schedule over two concurrent callers: `true` steps the first
thread, `false` the second. -/
def runSched : List Bool → RaceWorld → RaceWorld
  | [], w => w
  | b :: rest, w =>
    if b then
      let st := initStep w.p1 w.shared
      runSched rest ⟨st.1, w.p2, st.2⟩
    else
      let st := initStep w.p2 w.shared
      runSched rest ⟨w.p1, st.1, st.2⟩

/-- A zero-value client's shared fields. -/
def zeroRaceState : RaceState := ⟨false, none, 0, 0⟩

/-- An oracle on which every native operation succeeds and the transfer
delivers nothing. -/
def oracleAllOk : CurlOracle :=
  ⟨true, fun _ => true, true, true, 200, none, [], []⟩

/-- Concrete inputs for evaluating the theorems below. -/
def sampleUrl : Str := "https://example.com".toList

/-- A request with a nil URL. -/
def nilUrlReq : RequestModel := ⟨none, methodGET, [], none⟩

/-- A full idle pool for the pooled transport defaults. -/
def fullPool10 : List Handle := List.replicate 10 ([] : Handle)

/-- The header block of the repository's `TestParseHeaders` test. -/
def c4Input : Str :=
  "HTTP/1.1 200 OK\r\nContent-Type: application/json\r\nContent-Length: 123\r\nX-Custom: test-value\r\n".toList

/-- Header names and values used by the concrete evaluations. -/
def contentLengthKey : Str := "Content-Length".toList

/-- The value of Content-Length in the test block. -/
def c4ValCL : Str := "123".toList

/-- The X-Custom header name. -/
def xCustomKey : Str := "X-Custom".toList

/-- The value of X-Custom in the test block. -/
def c4ValXC : Str := "test-value".toList

/-- The status-line token queried by the test. -/
def c4StatusKey : Str := "HTTP/1.1".toList

/-- The full status-line text. -/
def c4StatusLine : Str := "HTTP/1.1 200 OK".toList

/-- A blank raw header line. -/
def c3Blank : Str := "   ".toList

/-- A status-line raw header line. -/
def c3Status : Str := "HTTP/1.1 200 OK".toList

/-- An ordinary raw header line with surrounding whitespace. -/
def c3Line : Str := "X-Custom:  a , b ".toList

/-- The name part of `c3Line` before the first colon. -/
def c3Name : Str := "X-Custom".toList

/-- The value part of `c3Line` after the first colon (pre-trim). -/
def c3Value : Str := "  a , b".toList

/-- A lowercase header name. -/
def c3Key : Str := "x-a".toList

/-- A header value. -/
def c3Val : Str := "v".toList

/-- A colon-free, non-blank, non-status raw line. -/
def c10Line : Str := "garbage line without separator".toList

/-- A combined blob with a double-CRLF separator. -/
def c6Good : Str := "A: b\r\n\r\nxy".toList

/-- A combined blob with only a double-LF separator. -/
def c6LF : Str := "A: b\n\nxy".toList

/-- A combined blob with no separator at all. -/
def c6Bad : Str := "no separator".toList

/-- The lines of the repository's bare-LF header parsing test. -/
def c8Lines : List Str :=
  ["HTTP/1.1 200 OK".toList, "Content-Type: application/json".toList,
   "Content-Length: 123".toList, []]

/-- A configuration with every defaultable field zero-valued. -/
def c5Zero : TransportCfg :=
  ⟨"", none, false, 0, 0, 0, 0, 0, 0, 0, 0, false, 0⟩

/-- A configuration with every defaultable field non-zero. -/
def c5Custom : TransportCfg :=
  ⟨"firefox102", none, true, 3, 7, 8, 9, 11, 12, 13, 14, false, 0⟩

/-- A schedule running the first thread to completion, then the second. -/
def seqSched : List Bool := [true, true, true, true, true, true, false]

/-- A schedule interleaving the two threads so that both pass the
`initialized` check and both pass the `Transport == nil` check before
either writes, then running both to completion. -/
def raceSched : List Bool :=
  [true, false, true, false, true, false, true, true, true, false, false]

/-! ## Helper lemmas -/

/-- `Add` under a key appends the value to that key's value list. -/
theorem lookupValues_addToEntry (ck v : Str) : ∀ h : HeaderMap,
    lookupValues ck (addToEntry ck v h) = lookupValues ck h ++ [v] := by
  intro h
  induction h with
  | nil => simp [addToEntry, lookupValues]
  | cons e rest ih =>
    by_cases he : e.1 = ck
    · simp [addToEntry, lookupValues, he]
    · simp [addToEntry, lookupValues, he, ih]

/-- `Set` under a key leaves exactly that value under the key. -/
theorem lookupValues_setEntry (ck v : Str) : ∀ h : HeaderMap,
    lookupValues ck (setEntry ck v h) = [v] := by
  intro h
  induction h with
  | nil => simp [setEntry, lookupValues]
  | cons e rest ih =>
    by_cases he : e.1 = ck
    · simp [setEntry, lookupValues, he]
    · simp [setEntry, lookupValues, he, ih]

/-- `Get` after `Set` of the same name returns the set value. -/
theorem headerGet_headerSet (h : HeaderMap) (k v : Str) :
    headerGet (headerSet h k v) k = v := by
  simp [headerGet, headerSet, headerValues, lookupValues_setEntry]

/-- A string without the separator character does not split. -/
theorem splitOnFirst_eq_none (sep : Char) : ∀ l : Str, sep ∉ l →
    splitOnFirst sep l = none := by
  intro l
  induction l with
  | nil => intro _; rfl
  | cons c t ih =>
    intro hmem
    simp only [List.mem_cons, not_or] at hmem
    have hc : ¬ c = sep := fun hcc => hmem.1 hcc.symm
    simp [splitOnFirst, hc, ih hmem.2]

/-- `SplitN _ sep 2` splits exactly at the first occurrence of `sep`. -/
theorem splitOnceSeq_eq_firstOccurIdx (sep : Str) : ∀ s : Str,
    splitOnceSeq sep s =
      (firstOccurIdx sep s).map (fun i => (s.take i, s.drop (i + sep.length))) := by
  intro s
  induction s with
  | nil =>
    by_cases hp : hasPrefixStr sep [] = true
    · simp [splitOnceSeq, firstOccurIdx, hp]
    · simp [splitOnceSeq, firstOccurIdx, hp]
  | cons c t ih =>
    by_cases hp : hasPrefixStr sep (c :: t) = true
    · simp [splitOnceSeq, firstOccurIdx, hp]
    · rw [splitOnceSeq, firstOccurIdx, if_neg hp, if_neg hp, ih]
      cases hfi : firstOccurIdx sep t with
      | none => simp
      | some i =>
        simp only [Option.map_some', Option.map_map]
        have harith : i + 1 + sep.length = (i + sep.length) + 1 := by omega
        simp [harith, List.take_succ_cons, List.drop_succ_cons]

/-- A newline-free string is a single line. -/
theorem splitLines_no_newline : ∀ a : Str, '\n' ∉ a → splitLines a = [a] := by
  intro a
  induction a with
  | nil => intro _; rfl
  | cons c t ih =>
    intro hmem
    simp only [List.mem_cons, not_or] at hmem
    have hc : ¬ c = '\n' := fun hcc => hmem.1 hcc.symm
    simp [splitLines, hc, ih hmem.2]

/-- Splitting after a newline following a newline-free part peels off
that part as the first line. -/
theorem splitLines_append_newline : ∀ a b : Str, '\n' ∉ a →
    splitLines (a ++ '\n' :: b) = a :: splitLines b := by
  intro a
  induction a with
  | nil => intro b _; simp [splitLines]
  | cons c t ih =>
    intro b hmem
    simp only [List.mem_cons, not_or] at hmem
    have hc : ¬ c = '\n' := fun hcc => hmem.1 hcc.symm
    simp [splitLines, hc, ih b hmem.2]

/-- Trailing carriage returns are removed by right trimming. -/
theorem trimRightSpace_append_cr (x : Str) :
    trimRightSpace (x ++ ['\r']) = trimRightSpace x := by
  have h : isGoSpace '\r' = true := rfl
  simp [trimRightSpace, List.reverse_append, List.dropWhile, h]

/-- Trailing carriage returns are removed by trimming. -/
theorem trimSpace_append_cr (x : Str) : trimSpace (x ++ ['\r']) = trimSpace x := by
  simp [trimSpace, trimRightSpace_append_cr]

/-- A trailing carriage return does not change how a line is processed. -/
theorem processHeaderLine_append_cr (h : HeaderMap) (x : Str) :
    processHeaderLine h (x ++ ['\r']) = processHeaderLine h x := by
  simp [processHeaderLine, trimSpace_append_cr]

/-- The CRLF separator as characters. -/
theorem crlfSep_chars : crlfSep = ['\r', '\n'] := rfl

/-- The LF separator as characters. -/
theorem lfSep_chars : lfSep = ['\n'] := rfl

/-- Folding the line processor over a CRLF-joined block equals folding
it over the same lines joined with bare LF, from any starting map. -/
theorem parseFold_crlf_lf : ∀ lines : List Str, (∀ l ∈ lines, '\n' ∉ l) →
    ∀ h : HeaderMap,
    (splitLines (joinLines crlfSep lines)).foldl processHeaderLine h =
    (splitLines (joinLines lfSep lines)).foldl processHeaderLine h := by
  intro lines
  induction lines with
  | nil => intro _ h; rfl
  | cons l rest ih =>
    intro hmem h
    cases rest with
    | nil => rfl
    | cons l2 ls =>
      have hl : '\n' ∉ l := hmem l (by simp)
      have hrest : ∀ x ∈ l2 :: ls, '\n' ∉ x := fun x hx => hmem x (by simp [hx])
      have hcr : '\n' ∉ l ++ ['\r'] := by
        simp only [List.mem_append, List.mem_singleton, not_or]
        exact ⟨hl, by decide⟩
      have e1 : joinLines crlfSep (l :: l2 :: ls) =
          (l ++ ['\r']) ++ '\n' :: joinLines crlfSep (l2 :: ls) := by
        show l ++ crlfSep ++ joinLines crlfSep (l2 :: ls) = _
        rw [crlfSep_chars]
        simp
      have e2 : joinLines lfSep (l :: l2 :: ls) =
          l ++ '\n' :: joinLines lfSep (l2 :: ls) := by
        show l ++ lfSep ++ joinLines lfSep (l2 :: ls) = _
        rw [lfSep_chars]
        simp
      rw [e1, e2, splitLines_append_newline _ _ hcr, splitLines_append_newline _ _ hl]
      simp only [List.foldl_cons]
      rw [processHeaderLine_append_cr]
      exact ih hrest (processHeaderLine h l)

/-- The acquisition step never emits a release event. -/
theorem getCurlHandle_no_release (t : TransportCfg) (pool : List Handle) (o : CurlOracle) :
    (getCurlHandle t pool o).events.count PoolEvent.released = 0 := by
  cases pool with
  | cons h0 rest => rfl
  | nil =>
    by_cases hi : o.easyInitOk = true
    · simp [getCurlHandle, hi]
    · simp [getCurlHandle, hi]

/-- The release step emits exactly one release event. -/
theorem returnCurlHandle_one_release (t : TransportCfg) (pool : List Handle) (h : Handle) :
    (returnCurlHandle t pool h).events.count PoolEvent.released = 1 := by
  unfold returnCurlHandle
  split <;> rfl

/-- The blob-variant acquisition step never emits a release event. -/
theorem getCurlHandleB_no_release (t : TransportCfg) (pool : List Handle) (o : CurlOracle) :
    (getCurlHandleB t pool o).events.count PoolEvent.released = 0 := by
  cases pool with
  | cons h0 rest => rfl
  | nil =>
    by_cases hi : o.easyInitOk = true
    · simp [getCurlHandleB, hi]
    · simp [getCurlHandleB, hi]

/-- The blob-variant release step emits exactly one release event. -/
theorem returnCurlHandleB_one_release (t : TransportCfg) (pool : List Handle) (h : Handle) :
    (returnCurlHandleB t pool h).events.count PoolEvent.released = 1 := by
  unfold returnCurlHandleB
  split <;> rfl

/-! ## Claim theorems -/

/-- Claim C1: `RoundTrip` on a nil request returns exactly the error
"request cannot be nil", and on a non-nil request with a nil URL exactly
"request URL cannot be nil"; in both cases the pool is untouched and no
pool event (in particular no acquisition) occurs. -/
theorem roundTrip_nil_precondition : ∀ (t : TransportCfg) (pool : List Handle) (o : CurlOracle),
    roundTrip t pool o none = ⟨.error "request cannot be nil", t, pool, []⟩ ∧
    ∀ r : RequestModel, r.url = none →
      roundTrip t pool o (some r) = ⟨.error "request URL cannot be nil", t, pool, []⟩ := by
  intro t pool o
  refine ⟨rfl, ?_⟩
  intro r hurl
  rcases r with ⟨u, m, hh, bb⟩
  cases u with
  | none => rfl
  | some v => simp at hurl

/-- Witness for C1 at concrete inputs. -/
theorem roundTrip_nil_precondition_witness :
    roundTrip newTransportCfg [] oracleAllOk none =
      ⟨.error "request cannot be nil", newTransportCfg, [], []⟩ ∧
    roundTrip newTransportCfg [] oracleAllOk (some nilUrlReq) =
      ⟨.error "request URL cannot be nil", newTransportCfg, [], []⟩ :=
  ⟨(roundTrip_nil_precondition newTransportCfg [] oracleAllOk).1,
   (roundTrip_nil_precondition newTransportCfg [] oracleAllOk).2 nilUrlReq rfl⟩

/-- Claim C3: the Header Collector trims each raw line; a line blank
after trimming adds nothing; a line starting with "HTTP/" adds nothing;
any other line with a colon is split at the first colon and the trimmed
value is added under the trimmed, canonicalized name; repeated names
accumulate values in order; and feeding a sequence of lines processes
them one at a time in order. -/
theorem header_collector_line_spec : ∀ (h : HeaderMap) (raw : Str),
    (trimSpace raw = [] → processHeaderLine h raw = h) ∧
    (hasPrefixStr httpTok (trimSpace raw) = true → processHeaderLine h raw = h) ∧
    (∀ name value : Str, trimSpace raw ≠ [] →
       hasPrefixStr httpTok (trimSpace raw) = false →
       splitOnFirst ':' (trimSpace raw) = some (name, value) →
       processHeaderLine h raw = headerAdd h (trimSpace name) (trimSpace value)) ∧
    (∀ (h2 : HeaderMap) (k v : Str),
       headerValues (headerAdd h2 k v) k = headerValues h2 k ++ [v]) ∧
    (∀ k v : Str, headerAdd ([] : HeaderMap) k v = [(canonicalKey k, [v])]) ∧
    (∀ (lines : List Str) (raw2 : Str),
       collectHeaders (lines ++ [raw2]) = processHeaderLine (collectHeaders lines) raw2) := by
  intro h raw
  refine ⟨?_, ?_, ?_, ?_, ?_, ?_⟩
  · intro h1; simp [processHeaderLine, h1]
  · intro h2
    by_cases h1 : trimSpace raw = []
    · simp [processHeaderLine, h1]
    · simp [processHeaderLine, h1, h2]
  · intro name value h1 h2 h3
    simp [processHeaderLine, h1, h2, h3]
  · intro h2 k v
    simp [headerValues, headerAdd, lookupValues_addToEntry]
  · intro k v; rfl
  · intro lines raw2
    simp [collectHeaders, List.foldl_append]

/-- Witness for C3 at concrete lines. -/
theorem header_collector_line_spec_witness :
    processHeaderLine [] c3Blank = [] ∧
    processHeaderLine [] c3Status = [] ∧
    processHeaderLine [] c3Line = headerAdd [] (trimSpace c3Name) (trimSpace c3Value) ∧
    headerValues (headerAdd [(canonicalKey c3Key, [c3Val])] c3Key c3Val) c3Key =
      [c3Val] ++ [c3Val] ∧
    headerAdd ([] : HeaderMap) c3Key c3Val = [(canonicalKey c3Key, [c3Val])] ∧
    collectHeaders ([c3Status] ++ [c3Line]) =
      processHeaderLine (collectHeaders [c3Status]) c3Line := by
  refine ⟨(header_collector_line_spec [] c3Blank).1 (by decide),
          (header_collector_line_spec [] c3Status).2.1 (by decide),
          (header_collector_line_spec [] c3Line).2.2.1 c3Name c3Value (by decide) (by decide) (by decide),
          ?_,
          (header_collector_line_spec [] c3Line).2.2.2.2.1 c3Key c3Val,
          (header_collector_line_spec [] c3Line).2.2.2.2.2 [c3Status] c3Line⟩
  have hv := (header_collector_line_spec [] c3Line).2.2.2.1
    [(canonicalKey c3Key, [c3Val])] c3Key c3Val
  rw [hv]
  decide

/-- Claim C4: on the test header block, parsing yields exactly the
three expected headers (and so no entry keyed by the status line), and
the empty input parses to the empty mapping. -/
theorem parseHeaders_concrete_cases :
    headerGet (parseHeaders c4Input) contentTypeKey = defaultContentType ∧
    headerGet (parseHeaders c4Input) contentLengthKey = c4ValCL ∧
    headerGet (parseHeaders c4Input) xCustomKey = c4ValXC ∧
    headerGet (parseHeaders c4Input) c4StatusKey = [] ∧
    headerGet (parseHeaders c4Input) c4StatusLine = [] ∧
    parseHeaders c4Input =
      [(contentTypeKey, [defaultContentType]),
       (contentLengthKey, [c4ValCL]),
       (xCustomKey, [c4ValXC])] ∧
    parseHeaders ([] : Str) = ([] : HeaderMap) := by
  decide

/-- Claim C5: applying configuration to a handle first fills defaults
into the record — "chrome136", 5000 ms connect timeout, 30000 ms
overall timeout, 300 s DNS cache, 16384-byte buffer, 50 max
connections, 300 s max age, 600 s max lifetime — for zero-valued
fields, leaving every non-zero field unchanged. -/
theorem configure_fills_zero_defaults : ∀ (t : TransportCfg) (h : Handle),
    (configureCurlHandle t h).1 = fillDefaults t ∧
    (t.impersonateTarget = "" → (fillDefaults t).impersonateTarget = "chrome136") ∧
    (t.impersonateTarget ≠ "" → (fillDefaults t).impersonateTarget = t.impersonateTarget) ∧
    (t.connectTimeoutMs = 0 → (fillDefaults t).connectTimeoutMs = 5000) ∧
    (t.connectTimeoutMs ≠ 0 → (fillDefaults t).connectTimeoutMs = t.connectTimeoutMs) ∧
    (t.timeoutMs = 0 → (fillDefaults t).timeoutMs = 30000) ∧
    (t.timeoutMs ≠ 0 → (fillDefaults t).timeoutMs = t.timeoutMs) ∧
    (t.dnsCacheTimeout = 0 → (fillDefaults t).dnsCacheTimeout = 300) ∧
    (t.dnsCacheTimeout ≠ 0 → (fillDefaults t).dnsCacheTimeout = t.dnsCacheTimeout) ∧
    (t.bufferSize = 0 → (fillDefaults t).bufferSize = 16384) ∧
    (t.bufferSize ≠ 0 → (fillDefaults t).bufferSize = t.bufferSize) ∧
    (t.maxConnects = 0 → (fillDefaults t).maxConnects = 50) ∧
    (t.maxConnects ≠ 0 → (fillDefaults t).maxConnects = t.maxConnects) ∧
    (t.maxAgeConn = 0 → (fillDefaults t).maxAgeConn = 300) ∧
    (t.maxAgeConn ≠ 0 → (fillDefaults t).maxAgeConn = t.maxAgeConn) ∧
    (t.maxLifetimeConn = 0 → (fillDefaults t).maxLifetimeConn = 600) ∧
    (t.maxLifetimeConn ≠ 0 → (fillDefaults t).maxLifetimeConn = t.maxLifetimeConn) := by
  intro t h
  refine ⟨rfl, ?_, ?_, ?_, ?_, ?_, ?_, ?_, ?_, ?_, ?_, ?_, ?_, ?_, ?_, ?_, ?_⟩ <;>
    intro hz <;> simp [fillDefaults, hz]

/-- Witness for C5 at a zeroed and a non-zero configuration. -/
theorem configure_fills_zero_defaults_witness :
    (fillDefaults c5Zero).impersonateTarget = "chrome136" ∧
    (fillDefaults c5Zero).connectTimeoutMs = 5000 ∧
    (fillDefaults c5Zero).timeoutMs = 30000 ∧
    (fillDefaults c5Zero).dnsCacheTimeout = 300 ∧
    (fillDefaults c5Zero).bufferSize = 16384 ∧
    (fillDefaults c5Zero).maxConnects = 50 ∧
    (fillDefaults c5Zero).maxAgeConn = 300 ∧
    (fillDefaults c5Zero).maxLifetimeConn = 600 ∧
    (fillDefaults c5Custom).impersonateTarget = c5Custom.impersonateTarget ∧
    (fillDefaults c5Custom).connectTimeoutMs = c5Custom.connectTimeoutMs ∧
    (fillDefaults c5Custom).timeoutMs = c5Custom.timeoutMs ∧
    (fillDefaults c5Custom).dnsCacheTimeout = c5Custom.dnsCacheTimeout ∧
    (fillDefaults c5Custom).bufferSize = c5Custom.bufferSize ∧
    (fillDefaults c5Custom).maxConnects = c5Custom.maxConnects ∧
    (fillDefaults c5Custom).maxAgeConn = c5Custom.maxAgeConn ∧
    (fillDefaults c5Custom).maxLifetimeConn = c5Custom.maxLifetimeConn ∧
    (configureCurlHandle c5Zero []).1 = fillDefaults c5Zero :=
  ⟨(configure_fills_zero_defaults c5Zero []).2.1 rfl,
   (configure_fills_zero_defaults c5Zero []).2.2.2.1 rfl,
   (configure_fills_zero_defaults c5Zero []).2.2.2.2.2.1 rfl,
   (configure_fills_zero_defaults c5Zero []).2.2.2.2.2.2.2.1 rfl,
   (configure_fills_zero_defaults c5Zero []).2.2.2.2.2.2.2.2.2.1 rfl,
   (configure_fills_zero_defaults c5Zero []).2.2.2.2.2.2.2.2.2.2.2.1 rfl,
   (configure_fills_zero_defaults c5Zero []).2.2.2.2.2.2.2.2.2.2.2.2.2.1 rfl,
   (configure_fills_zero_defaults c5Zero []).2.2.2.2.2.2.2.2.2.2.2.2.2.2.2.1 rfl,
   (configure_fills_zero_defaults c5Custom []).2.2.1 (by decide),
   (configure_fills_zero_defaults c5Custom []).2.2.2.2.1 (by decide),
   (configure_fills_zero_defaults c5Custom []).2.2.2.2.2.2.1 (by decide),
   (configure_fills_zero_defaults c5Custom []).2.2.2.2.2.2.2.2.1 (by decide),
   (configure_fills_zero_defaults c5Custom []).2.2.2.2.2.2.2.2.2.2.1 (by decide),
   (configure_fills_zero_defaults c5Custom []).2.2.2.2.2.2.2.2.2.2.2.2.1 (by decide),
   (configure_fills_zero_defaults c5Custom []).2.2.2.2.2.2.2.2.2.2.2.2.2.2.1 (by decide),
   (configure_fills_zero_defaults c5Custom []).2.2.2.2.2.2.2.2.2.2.2.2.2.2.2.2 (by decide),
   (configure_fills_zero_defaults c5Zero []).1⟩

/-- Claim C10: the header callback reports success on every line when
its sink is a header map — a line with no colon (after trimming) simply
adds nothing — and reports failure only when the sink is not a header
map, so no line content can abort the transfer. -/
theorem header_callback_never_aborts :
    (∀ (data : Str) (h : HeaderMap), (writeHeaderToMap data (.headerMap h)).1 = true) ∧
    (∀ data : Str, (writeHeaderToMap data .other).1 = false) ∧
    (∀ (data : Str) (h : HeaderMap), ':' ∉ trimSpace data →
       writeHeaderToMap data (.headerMap h) = (true, .headerMap h)) := by
  refine ⟨fun data h => rfl, fun data => rfl, ?_⟩
  intro data h hmem
  have hsplit := splitOnFirst_eq_none ':' (trimSpace data) hmem
  by_cases h1 : trimSpace data = []
  · simp [writeHeaderToMap, processHeaderLine, h1]
  · by_cases h2 : hasPrefixStr httpTok (trimSpace data) = true
    · simp [writeHeaderToMap, processHeaderLine, h1, h2]
    · simp [writeHeaderToMap, processHeaderLine, h1, h2, hsplit]

/-- Witness for C10 at a concrete colon-free line. -/
theorem header_callback_never_aborts_witness :
    (writeHeaderToMap c10Line (.headerMap [])).1 = true ∧
    (writeHeaderToMap c10Line .other).1 = false ∧
    writeHeaderToMap c10Line (.headerMap []) = (true, .headerMap []) :=
  ⟨header_callback_never_aborts.1 c10Line [],
   header_callback_never_aborts.2.1 c10Line,
   header_callback_never_aborts.2.2 c10Line [] (by decide)⟩

/-- Claim C2: whenever the request routine (pooled variant with header
callback, and the blob-capturing pooled variant) successfully acquires
a handle, its event trace contains exactly one release — regardless of
which success or failure path the oracle drives after acquisition; and
the release itself resets the handle, reapplies the persistent
configuration, and returns it to the idle pool when below capacity,
destroying it otherwise (a total, non-waiting case split). -/
theorem handle_released_exactly_once :
    (∀ (t : TransportCfg) (pool : List Handle) (o : CurlOracle) (url method : Str)
       (headers : List (Str × Str)) (body : Str),
       (getCurlHandle t pool o).handle.isSome = true →
       (performOptimizedRequest t pool o url method headers body).events.count
         PoolEvent.released = 1) ∧
    (∀ (t : TransportCfg) (pool : List Handle) (o : CurlOracle) (url method : Str)
       (headers : List (Str × Str)) (body : Str),
       (getCurlHandleB t pool o).handle.isSome = true →
       (performBlobRequest t pool o url method headers body).events.count
         PoolEvent.released = 1) ∧
    (∀ (t : TransportCfg) (pool : List Handle) (h : Handle),
       (pool.length < poolCap t →
          returnCurlHandle t pool h =
            ⟨(configureCurlHandle t (resetHandle h)).1,
             pool ++ [(configureCurlHandle t (resetHandle h)).2],
             [PoolEvent.released, PoolEvent.returnedToPool]⟩) ∧
       (¬ pool.length < poolCap t →
          returnCurlHandle t pool h =
            ⟨(configureCurlHandle t (resetHandle h)).1, pool,
             [PoolEvent.released, PoolEvent.destroyed]⟩)) := by
  refine ⟨?_, ?_, ?_⟩
  · intro t pool o url method headers body hacq
    cases hg : (getCurlHandle t pool o).handle with
    | none => rw [hg] at hacq; simp at hacq
    | some easy =>
      simp only [performOptimizedRequest, hg]
      rw [List.count_append, getCurlHandle_no_release, returnCurlHandle_one_release]
  · intro t pool o url method headers body hacq
    cases hg : (getCurlHandleB t pool o).handle with
    | none => rw [hg] at hacq; simp at hacq
    | some easy =>
      simp only [performBlobRequest, hg]
      rw [List.count_append, getCurlHandleB_no_release, returnCurlHandleB_one_release]
  · intro t pool h
    constructor
    · intro hlt; simp [returnCurlHandle, hlt]
    · intro hge; simp [returnCurlHandle, hge]

/-- Witness for C2: a concrete acquisition with exactly one release on
both variants, a concrete return to a non-full pool, and a concrete
destruction at a full pool. -/
theorem handle_released_exactly_once_witness :
    (performOptimizedRequest newTransportCfg [[]] oracleAllOk sampleUrl methodGET
      [] []).events.count PoolEvent.released = 1 ∧
    (performBlobRequest newTransportCfg [[]] oracleAllOk sampleUrl methodGET
      [] []).events.count PoolEvent.released = 1 ∧
    returnCurlHandle newTransportCfg [] [] =
      ⟨(configureCurlHandle newTransportCfg (resetHandle [])).1,
       [] ++ [(configureCurlHandle newTransportCfg (resetHandle [])).2],
       [PoolEvent.released, PoolEvent.returnedToPool]⟩ ∧
    returnCurlHandle newTransportCfg fullPool10 [] =
      ⟨(configureCurlHandle newTransportCfg (resetHandle [])).1, fullPool10,
       [PoolEvent.released, PoolEvent.destroyed]⟩ :=
  ⟨handle_released_exactly_once.1 newTransportCfg [[]] oracleAllOk sampleUrl
     methodGET [] [] rfl,
   handle_released_exactly_once.2.1 newTransportCfg [[]] oracleAllOk sampleUrl
     methodGET [] [] rfl,
   (handle_released_exactly_once.2.2 newTransportCfg [] []).1 (by decide),
   (handle_released_exactly_once.2.2 newTransportCfg fullPool10 []).2 (by decide)⟩

/-- Claim C6: the combined header+body blob is split at the first
occurrence of double CRLF; when that separator is absent, at the first
occurrence of double LF; and when neither occurs the split — and hence
the blob-variant assembly — fails with the parse error and produces no
response. -/
theorem blob_split_first_separator : ∀ s : Str,
    (∀ i : Nat, firstOccurIdx crlf2 s = some i →
       splitHeadersBody s = .ok (s.take i, s.drop (i + 4))) ∧
    (firstOccurIdx crlf2 s = none → ∀ i : Nat, firstOccurIdx lf2 s = some i →
       splitHeadersBody s = .ok (s.take i, s.drop (i + 2))) ∧
    (firstOccurIdx crlf2 s = none → firstOccurIdx lf2 s = none →
       splitHeadersBody s = .error "failed to separate headers and body in response" ∧
       ∀ code : Int, assembleFromBlob code s =
         .error "failed to separate headers and body in response") := by
  intro s
  have hc : crlf2.length = 4 := rfl
  have hl : lf2.length = 2 := rfl
  refine ⟨?_, ?_, ?_⟩
  · intro i hi
    simp [splitHeadersBody, splitOnceSeq_eq_firstOccurIdx, hi, hc]
  · intro hnone i hi
    simp [splitHeadersBody, splitOnceSeq_eq_firstOccurIdx, hnone, hi, hl]
  · intro h1 h2
    refine ⟨?_, ?_⟩
    · simp [splitHeadersBody, splitOnceSeq_eq_firstOccurIdx, h1, h2]
    · intro code
      simp [assembleFromBlob, splitHeadersBody, splitOnceSeq_eq_firstOccurIdx, h1, h2]

/-- Witness for C6 at concrete blobs: CRLF split, LF fallback split,
and the no-separator parse error. -/
theorem blob_split_first_separator_witness :
    splitHeadersBody c6Good = .ok (c6Good.take 4, c6Good.drop (4 + 4)) ∧
    splitHeadersBody c6LF = .ok (c6LF.take 4, c6LF.drop (4 + 2)) ∧
    splitHeadersBody c6Bad = .error "failed to separate headers and body in response" ∧
    assembleFromBlob 200 c6Bad = .error "failed to separate headers and body in response" :=
  ⟨(blob_split_first_separator c6Good).1 4 (by decide),
   (blob_split_first_separator c6LF).2.1 (by decide) 4 (by decide),
   ((blob_split_first_separator c6Bad).2.2 (by decide) (by decide)).1,
   ((blob_split_first_separator c6Bad).2.2 (by decide) (by decide)).2 200⟩

/-- Claim C8: a header block joined from newline-free lines parses to
exactly the same mapping with CRLF line endings as with bare LF line
endings. -/
theorem parseHeaders_crlf_lf_agree (lines : List Str) (hl : ∀ l ∈ lines, '\n' ∉ l) :
    parseHeaders (joinLines crlfSep lines) = parseHeaders (joinLines lfSep lines) :=
  parseFold_crlf_lf lines hl []

/-- Witness for C8 on the lines of the repository's bare-LF test. -/
theorem parseHeaders_crlf_lf_agree_witness :
    (∀ l ∈ c8Lines, '\n' ∉ l) ∧
    parseHeaders (joinLines crlfSep c8Lines) = parseHeaders (joinLines lfSep c8Lines) :=
  ⟨by decide, parseHeaders_crlf_lf_agree c8Lines (by decide)⟩

/-- Claim C9: on success the assembled response carries the status code
read from the executor; its Content-Type is the collected one when
present, else the executor's non-empty content-type metadata, else the
generic default — so a Content-Type header is always present. -/
theorem finalize_content_type_fallback : ∀ (code : Int) (hdrs : HeaderMap)
    (ctInfo : Option (Option Str)) (bodyData : Str),
    (finalizeResponse code hdrs ctInfo bodyData).statusCode = code ∧
    headerGet (finalizeResponse code hdrs ctInfo bodyData).header contentTypeKey =
      (if headerGet hdrs contentTypeKey = [] then
         match ctInfo with
         | some (some ct) => if ct = [] then defaultContentType else ct
         | _ => defaultContentType
       else headerGet hdrs contentTypeKey) ∧
    headerGet (finalizeResponse code hdrs ctInfo bodyData).header contentTypeKey ≠ [] := by
  intro code hdrs ctInfo bodyData
  have key : headerGet (finalizeResponse code hdrs ctInfo bodyData).header contentTypeKey =
      (if headerGet hdrs contentTypeKey = [] then
         match ctInfo with
         | some (some ct) => if ct = [] then defaultContentType else ct
         | _ => defaultContentType
       else headerGet hdrs contentTypeKey) := by
    by_cases h0 : headerGet hdrs contentTypeKey = []
    · cases ctInfo with
      | none => simp [finalizeResponse, h0, headerGet_headerSet]
      | some ct =>
        cases ct with
        | none => simp [finalizeResponse, h0, headerGet_headerSet]
        | some s =>
          by_cases hs : s = []
          · simp [finalizeResponse, h0, hs, headerGet_headerSet]
          · simp [finalizeResponse, h0, hs, headerGet_headerSet]
    · simp [finalizeResponse, h0]
  refine ⟨rfl, key, ?_⟩
  rw [key]
  by_cases h0 : headerGet hdrs contentTypeKey = []
  · simp only [h0, if_true, if_pos]
    cases ctInfo with
    | none => decide
    | some ct =>
      cases ct with
      | none => decide
      | some s =>
        by_cases hs : s = []
        · simp [hs]; decide
        · simp [hs]
  · simp [h0]

/-- Claim C7 (code bug): `ensureInitialized` guards its one-time
initialization with a plain unsynchronized boolean. At the granularity
of the source's shared-field loads and stores, running one caller to
completion and then a second performs the initialization once
(one transport allocation, both callers done); but the interleaving in
`raceSched` — both callers read `initialized` as false and read
`Transport` as nil before either writes — makes both callers run the
initialization body, allocating two transports, contradicting the
specified exactly-once, thread-safe initialization. The sequential
transformer itself does fill the documented defaults and is idempotent. -/
theorem ensureInitialized_unsynchronized_double_init :
    ensureInitialized ⟨none, 0, false⟩ = ⟨some newTransportCfg, thirtySecondsNs, true⟩ ∧
    ensureInitialized (ensureInitialized ⟨none, 0, false⟩) =
      ensureInitialized ⟨none, 0, false⟩ ∧
    (runSched seqSched ⟨InitPhase.beforeFlag, InitPhase.beforeFlag, zeroRaceState⟩).shared.allocCount = 1 ∧
    (runSched seqSched ⟨InitPhase.beforeFlag, InitPhase.beforeFlag, zeroRaceState⟩).p1 = InitPhase.done ∧
    (runSched seqSched ⟨InitPhase.beforeFlag, InitPhase.beforeFlag, zeroRaceState⟩).p2 = InitPhase.done ∧
    (runSched raceSched ⟨InitPhase.beforeFlag, InitPhase.beforeFlag, zeroRaceState⟩).p1 = InitPhase.done ∧
    (runSched raceSched ⟨InitPhase.beforeFlag, InitPhase.beforeFlag, zeroRaceState⟩).p2 = InitPhase.done ∧
    (runSched raceSched ⟨InitPhase.beforeFlag, InitPhase.beforeFlag, zeroRaceState⟩).shared.allocCount = 2 := by
  refine ⟨rfl, rfl, ?_, ?_, ?_, ?_, ?_, ?_⟩ <;> decide

end CurlHttp
